import Mathlib

/-!
Verification of the mic-volume-control repository (Rust, Windows) against its
natural-language specification.  The Rust sources are shallowly embedded:
`f32` volume levels become `ℚ`, fallible Windows API calls become explicit
success flags in an environment record together with a trace of the device
interactions that were attempted, and the monitoring loop becomes a
fuel-indexed recursion producing a list of events.
-/

namespace MicVolCtl

/-! ## Volume endpoint accessor (src/audio.rs) -/

/-- Error outcomes of the audio controller operations, one per `context(...)`
attachment point in src/audio.rs (plus the `anyhow::bail!` range violation). -/
inductive AudioError
  | invalidRange
  | comInitFailed
  | enumeratorFailed
  | deviceUnavailable
  | activateFailed
  | getLevelFailed
  | setLevelFailed
deriving DecidableEq, Repr

/-- A device interaction attempted by the accessor, in the order the Rust code
performs them: COM initialization, `CoCreateInstance` of the device enumerator,
`GetDefaultAudioEndpoint`, `Activate` of the endpoint-volume interface, and the
final get or set of the master volume scalar. -/
inductive DevStep
  | comInit
  | createEnumerator
  | resolveDefaultDevice
  | activateVolume
  | getLevel
  | setLevel (level : ℚ)
deriving DecidableEq, Repr

/-- Environment for one accessor call: whether each external Windows call
succeeds, and the level the device currently reports. -/
structure DevEnv where
  comOk : Bool
  enumOk : Bool
  deviceOk : Bool
  activateOk : Bool
  getOk : Bool
  setOk : Bool
  currentLevel : ℚ
deriving DecidableEq, Repr

/-- `AudioController::set_volume` (src/audio.rs lines 80-99).  The Rust code
first checks `(0.0..=1.0).contains(&target_volume)` and bails with the range
error before creating the COM guard, the enumerator, or resolving the device;
otherwise it performs the device steps in order, stopping at the first failing
call.  Returns the trace of attempted device interactions and the result. -/
def set_volume (env : DevEnv) (target : ℚ) :
    List DevStep × Except AudioError Unit :=
  if 0 ≤ target ∧ target ≤ 1 then
    if env.comOk = false then
      ([DevStep.comInit], Except.error AudioError.comInitFailed)
    else if env.enumOk = false then
      ([DevStep.comInit, DevStep.createEnumerator],
       Except.error AudioError.enumeratorFailed)
    else if env.deviceOk = false then
      ([DevStep.comInit, DevStep.createEnumerator, DevStep.resolveDefaultDevice],
       Except.error AudioError.deviceUnavailable)
    else if env.activateOk = false then
      ([DevStep.comInit, DevStep.createEnumerator, DevStep.resolveDefaultDevice,
        DevStep.activateVolume],
       Except.error AudioError.activateFailed)
    else
      ([DevStep.comInit, DevStep.createEnumerator, DevStep.resolveDefaultDevice,
        DevStep.activateVolume, DevStep.setLevel target],
       if env.setOk then Except.ok () else Except.error AudioError.setLevelFailed)
  else
    ([], Except.error AudioError.invalidRange)

/-- The drift tolerance, `const TOLERANCE: f32 = 0.01` in
`check_and_adjust_volume` (src/audio.rs line 140). -/
def TOLERANCE : ℚ := 1 / 100

/-- Environment for one iteration of the monitoring loop: whether device
resolution, activation, the read and the write succeed, and the current level
the device reports. -/
structure IterEnv where
  deviceOk : Bool
  activateOk : Bool
  getOk : Bool
  current : ℚ
  setOk : Bool
deriving DecidableEq, Repr

/-- `AudioController::check_and_adjust_volume` (src/audio.rs lines 127-161):
resolve the default microphone, activate its volume interface, read the current
level; if `(current - target).abs() > TOLERANCE`, issue one corrective write of
`target` (whose own failure is an error of the call); otherwise do nothing.
Returns the list of corrective writes issued and the call's result. -/
def check_and_adjust_volume (env : IterEnv) (target : ℚ) :
    List ℚ × Except AudioError Unit :=
  if env.deviceOk = false then ([], Except.error AudioError.deviceUnavailable)
  else if env.activateOk = false then ([], Except.error AudioError.activateFailed)
  else if env.getOk = false then ([], Except.error AudioError.getLevelFailed)
  else if TOLERANCE < abs (env.current - target) then
    ([target], if env.setOk then Except.ok () else Except.error AudioError.setLevelFailed)
  else
    ([], Except.ok ())

/-! ## Monitoring loop (src/audio.rs `monitor_and_control`) and the running flag -/

/-- One observable event of the monitoring loop: a `check_and_adjust_volume`
call (recording the corrective writes it issued and whether its error was
logged by the `if let Err(e) = ... { error!(...) }` branch), the interval
sleep, or the observation of the cleared flag that ends the loop. -/
inductive LoopEvent
  | check (writes : List ℚ) (errorLogged : Bool)
  | sleep
  | stopped
deriving DecidableEq, Repr

/-- Whether the loop body logs an error for this iteration result
(src/audio.rs lines 116-118: exactly the `Err` case is logged). -/
def logsError : Except AudioError Unit → Bool
  | Except.ok _ => false
  | Except.error _ => true

/-- The `while running.load(..)` loop of `AudioController::monitor_and_control`
(src/audio.rs lines 115-121), as a fuel-indexed recursion.  `flag i` is the
value the shared `running` flag holds when iteration `i` reaches the loop head;
`envs i` is the device environment iteration `i` encounters.  Each pass either
observes a cleared flag and stops, or runs `check_and_adjust_volume` (logging
but absorbing its error) and sleeps for the check interval.  Exhausted fuel
(empty list, no `stopped` event) models a loop that is still running. -/
def monitor_loop (target : ℚ) (envs : ℕ → IterEnv) (flag : ℕ → Bool) :
    ℕ → ℕ → List LoopEvent
  | 0, _ => []
  | fuel + 1, i =>
    if flag i then
      LoopEvent.check (check_and_adjust_volume (envs i) target).1
          (logsError (check_and_adjust_volume (envs i) target).2) ::
        LoopEvent.sleep :: monitor_loop target envs flag fuel (i + 1)
    else
      [LoopEvent.stopped]

/-- All corrective writes occurring in a loop trace. -/
def loopWrites : List LoopEvent → List ℚ
  | [] => []
  | LoopEvent.check ws _ :: rest => ws ++ loopWrites rest
  | _ :: rest => loopWrites rest

/-- `AudioController::monitor_and_control` (src/audio.rs lines 102-125): checks
the target range, initializes COM and the device enumerator, then runs the
monitoring loop.  Returns the loop trace and the call's result. -/
def monitor_and_control (target : ℚ) (comOk enumOk : Bool) (envs : ℕ → IterEnv)
    (flag : ℕ → Bool) (fuel : ℕ) : List LoopEvent × Except AudioError Unit :=
  if 0 ≤ target ∧ target ≤ 1 then
    if comOk = false then ([], Except.error AudioError.comInitFailed)
    else if enumOk = false then ([], Except.error AudioError.enumeratorFailed)
    else (monitor_loop target envs flag fuel 0, Except.ok ())
  else ([], Except.error AudioError.invalidRange)

/-- The stores the program performs on the shared `running` flag after the
controller is constructed with `AtomicBool::new(true)`.  Every shutdown path —
`AudioController::stop` (src/audio.rs lines 164-167), reached from the Ctrl-C
handler and from the tray Quit branch (src/main.rs) — executes
`running.store(false, ..)`; no code path stores `true` again. -/
inductive FlagStore
  | storeFalse
deriving DecidableEq, Repr

/-- Effect of one program store on the flag. -/
def applyStore : Bool → FlagStore → Bool
  | _, FlagStore.storeFalse => false

/-- Flag value after a sequence of program stores, starting from the initial
`true` of `AudioController::new`. -/
def flagAfter (stores : List FlagStore) : Bool :=
  List.foldl applyStore true stores

/-! ## Process supervisor (src/main.rs `run`) -/

/-- An event of the supervisor's run, restricted to what the ordering claim
needs: the unconditional startup `set_volume` call, or an event of the
monitoring loop running on the spawned background thread. -/
inductive RunEvent
  | initialWrite (level : ℚ)
  | loopEvent (e : LoopEvent)
deriving DecidableEq, Repr

/-- The volume-related event trace of `run` (src/main.rs lines 50-67): after
loading the configuration, `run` calls `AudioController::set_volume(target)`
and propagates its error with `?` — on failure no monitoring thread is ever
spawned; on success the monitoring thread running `monitor_and_control` is
spawned, so every loop event comes after the initial write. -/
def run_trace (target : ℚ) (env : DevEnv) (comOk enumOk : Bool)
    (envs : ℕ → IterEnv) (flag : ℕ → Bool) (fuel : ℕ) : List RunEvent :=
  match (set_volume env target).2 with
  | Except.error _ => []
  | Except.ok _ =>
    RunEvent.initialWrite target ::
      (monitor_and_control target comOk enumOk envs flag fuel).1.map RunEvent.loopEvent

/-- `handle_command` for the `SetVolume` subcommand (src/main.rs lines
140-145): the clap-validated `u8` in `0..=100` is converted by
`*volume as f32 / 100.0`. -/
def setVolumeCommandLevel (v : ℕ) : ℚ :=
  (v : ℚ) / 100

/-! ## Scheduled-activation registrar (src/scheduler.rs) -/

/-- `const TASK_NAME: &str = "MicrophoneVolumeControl"` (src/scheduler.rs line 6). -/
def TASK_NAME : String := "MicrophoneVolumeControl"

/-- Error outcomes of the registrar operations. -/
inductive SchedError
  | serviceUnreachable
  | taskNotFound
  | registrationFailed
  | cleanupFailed
deriving DecidableEq, Repr

/-- The task definition fields that depend on the registration parameters; the
remaining fields (author, triggers' fixed delays, settings) are constants of
`register_task`. -/
structure TaskDef where
  targetVolume : ℚ
  intervalMinutes : ℕ
deriving DecidableEq, Repr

/-- The OS task store for the root folder: the list of (name, definition)
records the Task Scheduler currently holds.  The OS owns it; the registrar
only issues `DeleteTask` / `RegisterTaskDefinition` commands against it. -/
abbrev TaskStore : Type := List (String × TaskDef)

/-- `ITaskFolder::DeleteTask`, the Windows Task Scheduler API the registrar
calls.  Its documented behaviour, relied on by the Rust code, is that deleting
a task that does not exist fails (HRESULT 0x80070002, surfaced as `Err` by
windows-rs) — which is why `register_task` discards the result with
`let _ = root_folder.DeleteTask(..)` (src/scheduler.rs line 41) while
`unregister_task` propagates it with `?` (lines 231-233). -/
def DeleteTask (store : TaskStore) (name : String) :
    Except SchedError TaskStore :=
  if (store.filter fun p => p.1 = name) = [] then Except.error SchedError.taskNotFound
  else Except.ok (store.filter fun p => p.1 ≠ name)

/-- Environment for one registrar operation: whether the service connection /
folder lookup succeeds, and whether the definition build and commit
(`NewTask` … `RegisterTaskDefinition`) succeeds. -/
structure SchedEnv where
  serviceOk : Bool
  commitOk : Bool
deriving DecidableEq, Repr

/-- `TaskScheduler::register_task` (src/scheduler.rs lines 28-222): get the
root folder, delete any existing task of the fixed name ignoring the result,
build a fresh definition from the parameters, and commit it with
`TASK_CREATE_OR_UPDATE`.  Returns the resulting store and the result; a commit
failure leaves the store with the old task already deleted (the brief window). -/
def register_task (env : SchedEnv) (target_volume : ℚ) (interval_minutes : ℕ)
    (store : TaskStore) : TaskStore × Except SchedError Unit :=
  if env.serviceOk = false then (store, Except.error SchedError.serviceUnreachable)
  else
    let deleted : TaskStore :=
      match DeleteTask store TASK_NAME with
      | Except.ok s => s
      | Except.error _ => store
    if env.commitOk = false then (deleted, Except.error SchedError.registrationFailed)
    else ((TASK_NAME, ⟨target_volume, interval_minutes⟩) :: deleted, Except.ok ())

/-- `TaskScheduler::unregister_task` (src/scheduler.rs lines 224-240): get the
root folder, then `DeleteTask(.., TASK_NAME).context(..)?` — the delete error,
including the not-found case, is propagated to the caller.  After a successful
delete the code runs `Self::cleanup_vbs_wrapper()?` (line 237), whose own
failure (APPDATA resolution or file removal) is also propagated, with the task
already deleted at that point; `cleanupOk` models whether that cleanup
succeeds. -/
def unregister_task (env : SchedEnv) (cleanupOk : Bool) (store : TaskStore) :
    TaskStore × Except SchedError Unit :=
  if env.serviceOk = false then (store, Except.error SchedError.serviceUnreachable)
  else
    match DeleteTask store TASK_NAME with
    | Except.ok s =>
      if cleanupOk then (s, Except.ok ())
      else (s, Except.error SchedError.cleanupFailed)
    | Except.error e => (store, Except.error e)

/-! ## Configuration (src/config.rs) -/

/-- The `Config` struct (src/config.rs lines 56-69). -/
structure Config where
  target_volume : ℚ
  check_interval_ms : ℕ
  enable_tray : Bool
  enable_autostart : Bool
deriving DecidableEq, Repr

/-- `impl Default for Config` (src/config.rs lines 71-80). -/
def Config.defaultConfig : Config :=
  ⟨95 / 100, 300000, true, true⟩

/-- Error outcomes of config loading and saving. -/
inductive ConfigError
  | fileNotFound
  | missingField
  | invalidTargetVolume
  | intervalTooSmall
  | writeFailed
deriving DecidableEq, Repr

/-- A persisted TOML record for `Config`: each struct field optionally present,
plus the keys of any unknown fields the file carries. -/
structure ConfigRecord where
  tv : Option ℚ
  ci : Option ℕ
  et : Option Bool
  ea : Option Bool
  unknownKeys : List String
deriving DecidableEq, Repr

/-- The serde-derived `Deserialize` for `Config` (src/config.rs line 56).  The
struct carries no `serde(default)` attribute, so the derived deserializer
requires every field to be present — a missing field is a hard parse error —
while keys it does not recognise are skipped (serde's default behaviour absent
`deny_unknown_fields`). -/
def deserializeConfig (r : ConfigRecord) : Except ConfigError Config :=
  match r.tv, r.ci, r.et, r.ea with
  | some tv, some ci, some et, some ea => Except.ok ⟨tv, ci, et, ea⟩
  | _, _, _, _ => Except.error ConfigError.missingField

/-- Serialization of a `Config` for `Config::save`: every field written out. -/
def serializeConfig (c : Config) : ConfigRecord :=
  ⟨some c.target_volume, some c.check_interval_ms, some c.enable_tray,
   some c.enable_autostart, []⟩

/-- The file system as the config code sees it: the contents of
`config.toml`, when the file exists and parses as a TOML table. -/
structure ConfigFs where
  configFile : Option ConfigRecord
deriving DecidableEq, Repr

/-- `Config::load_from_file` (src/config.rs lines 117-131): error when the
file does not exist, otherwise parse its contents. -/
def load_from_file (fs : ConfigFs) : Except ConfigError Config :=
  match fs.configFile with
  | none => Except.error ConfigError.fileNotFound
  | some r => deserializeConfig r

/-- The CLI arguments relevant to `Config::load` (src/config.rs lines 13-32);
clap constrains `volume` to `0..=100` and `interval` to `100..`. -/
structure Cli where
  volume : Option ℕ
  interval : Option ℕ
  no_tray : Bool
  no_autostart : Bool
deriving DecidableEq, Repr

/-- `Config::validate` (src/config.rs lines 151-161). -/
def Config.validate (c : Config) : Except ConfigError Unit :=
  if 0 ≤ c.target_volume ∧ c.target_volume ≤ 1 then
    if c.check_interval_ms < 100 then Except.error ConfigError.intervalTooSmall
    else Except.ok ()
  else Except.error ConfigError.invalidTargetVolume

/-- `Config::save` (src/config.rs lines 133-149): serialize and write the
whole config to the config file; `writeOk` models whether the directory
creation and file write succeed. -/
def Config.save (c : Config) (writeOk : Bool) (fs : ConfigFs) :
    ConfigFs × Except ConfigError Unit :=
  if writeOk then (⟨some (serializeConfig c)⟩, Except.ok ())
  else (fs, Except.error ConfigError.writeFailed)

/-- The merge step of `Config::load` (src/config.rs lines 85-106): start from
the file config when it loads, else from `Config::default()`, then override
each field a CLI argument supplies (`volume as f32 / 100.0` for the volume). -/
def mergedConfig (cli : Cli) (fs : ConfigFs) : Config :=
  let base : Config :=
    match load_from_file fs with
    | Except.ok c => c
    | Except.error _ => Config.defaultConfig
  { target_volume :=
      match cli.volume with
      | some v => (v : ℚ) / 100
      | none => base.target_volume
    check_interval_ms :=
      match cli.interval with
      | some iv => iv
      | none => base.check_interval_ms
    enable_tray := if cli.no_tray then false else base.enable_tray
    enable_autostart := if cli.no_autostart then false else base.enable_autostart }

/-- `Config::load` (src/config.rs lines 84-115): merge file and CLI values,
validate (returning the validation error before touching the file), save the
merged config back, and return it.  Returns the resulting file system and the
result. -/
def Config.load (cli : Cli) (writeOk : Bool) (fs : ConfigFs) :
    ConfigFs × Except ConfigError Config :=
  match (mergedConfig cli fs).validate with
  | Except.error e => (fs, Except.error e)
  | Except.ok _ =>
    match Config.save (mergedConfig cli fs) writeOk fs with
    | (fs2, Except.ok _) => (fs2, Except.ok (mergedConfig cli fs))
    | (fs2, Except.error e) => (fs2, Except.error e)

/-! ## Helper lemmas -/

lemma set_volume_out_of_range (env : DevEnv) (target : ℚ)
    (h : ¬(0 ≤ target ∧ target ≤ 1)) :
    set_volume env target = ([], Except.error AudioError.invalidRange) := by
  simp [set_volume, h]

lemma set_volume_ne_invalidRange (env : DevEnv) (target : ℚ)
    (h : 0 ≤ target ∧ target ≤ 1) :
    (set_volume env target).2 ≠ Except.error AudioError.invalidRange := by
  obtain ⟨c, e, d, a, g, s, lvl⟩ := env
  cases c <;> cases e <;> cases d <;> cases a <;> cases s <;>
    simp [set_volume, h]

lemma setLevel_mem_set_volume (env : DevEnv) (target : ℚ)
    (h : 0 ≤ target ∧ target ≤ 1) (hc : env.comOk = true)
    (he : env.enumOk = true) (hd : env.deviceOk = true)
    (ha : env.activateOk = true) :
    DevStep.setLevel target ∈ (set_volume env target).1 := by
  simp [set_volume, h, hc, he, hd, ha]

/-! ## Claim theorems -/

/-- C1: For every target volume in [0.0, 1.0] and every current reading, a
single iteration of the drift-correction loop issues no corrective write when
abs (current - target) ≤ 0.01, and issues exactly one corrective write,
setting the level to the target, when abs (current - target) > 0.01. -/
theorem C1_single_iteration_writes (target current : ℚ) (env : IterEnv)
    (_htarget : 0 ≤ target ∧ target ≤ 1)
    (hdev : env.deviceOk = true) (hact : env.activateOk = true)
    (hget : env.getOk = true) (hcur : env.current = current) :
    (abs (current - target) ≤ TOLERANCE →
        (check_and_adjust_volume env target).1 = []) ∧
    (TOLERANCE < abs (current - target) →
        (check_and_adjust_volume env target).1 = [target]) := by
  subst hcur
  constructor
  · intro h
    simp [check_and_adjust_volume, hdev, hact, hget, not_lt.mpr h]
  · intro h
    simp [check_and_adjust_volume, hdev, hact, hget, h]

/-- Witness for C1 at the spec's own scenarios: target 0.50 with reading 0.505
produces no write; target 0.95 with reading 0.80 produces the single write of
0.95. -/
theorem C1_single_iteration_writes_witness :
    (check_and_adjust_volume ⟨true, true, true, 505 / 1000, true⟩ (1 / 2)).1
      = [] ∧
    (check_and_adjust_volume ⟨true, true, true, 8 / 10, true⟩ (95 / 100)).1
      = [95 / 100] := by
  constructor
  · exact (C1_single_iteration_writes (1 / 2) (505 / 1000)
      ⟨true, true, true, 505 / 1000, true⟩ (by norm_num) rfl rfl rfl rfl).1
      (by rw [TOLERANCE, abs_le]; constructor <;> norm_num)
  · exact (C1_single_iteration_writes (95 / 100) (8 / 10)
      ⟨true, true, true, 8 / 10, true⟩ (by norm_num) rfl rfl rfl rfl).2
      (by
        rw [TOLERANCE, abs_sub_comm,
          abs_of_nonneg (by norm_num : (0:ℚ) ≤ 95 / 100 - 8 / 10)]
        norm_num)

/-- C2: For every target outside [0.0, 1.0], set_volume returns the
invalid-range error with an empty device trace — no COM initialization, no
enumerator creation, no default-device resolution; for targets inside the
range the check passes (the result is never the invalid-range error) and,
when the device calls succeed, the write of the target level is attempted. -/
theorem C2_set_volume_range_check (target : ℚ) (env : DevEnv) :
    (¬(0 ≤ target ∧ target ≤ 1) →
        set_volume env target = ([], Except.error AudioError.invalidRange)) ∧
    ((0 ≤ target ∧ target ≤ 1) →
        (set_volume env target).2 ≠ Except.error AudioError.invalidRange ∧
        (env.comOk = true → env.enumOk = true → env.deviceOk = true →
            env.activateOk = true →
          DevStep.setLevel target ∈ (set_volume env target).1)) := by
  refine ⟨fun h => set_volume_out_of_range env target h, fun h => ⟨?_, ?_⟩⟩
  · exact set_volume_ne_invalidRange env target h
  · intro hc he hd ha
    exact setLevel_mem_set_volume env target h hc he hd ha

/-- Witness for C2: target 3/2 is rejected with an empty trace; target 1/2
passes the check and its write is attempted on a healthy device. -/
theorem C2_set_volume_range_check_witness :
    set_volume ⟨true, true, true, true, true, true, 0⟩ (3 / 2)
      = ([], Except.error AudioError.invalidRange) ∧
    (set_volume ⟨true, true, true, true, true, true, 0⟩ (1 / 2)).2
      ≠ Except.error AudioError.invalidRange ∧
    DevStep.setLevel (1 / 2)
      ∈ (set_volume ⟨true, true, true, true, true, true, 0⟩ (1 / 2)).1 := by
  refine ⟨(C2_set_volume_range_check (3 / 2)
      ⟨true, true, true, true, true, true, 0⟩).1 (by norm_num), ?_, ?_⟩
  · exact ((C2_set_volume_range_check (1 / 2)
      ⟨true, true, true, true, true, true, 0⟩).2 (by norm_num)).1
  · exact ((C2_set_volume_range_check (1 / 2)
      ⟨true, true, true, true, true, true, 0⟩).2 (by norm_num)).2 rfl rfl rfl rfl

/-- C9: every volume accepted by the SetVolume subcommand (a u8 constrained by
clap to 0..=100) converts to a level in [0, 1], so set_volume's invalid-range
branch is unreachable from that subcommand. -/
theorem C9_cli_setvolume_in_range (v : ℕ) (hv : v ≤ 100) (env : DevEnv) :
    0 ≤ setVolumeCommandLevel v ∧ setVolumeCommandLevel v ≤ 1 ∧
      (set_volume env (setVolumeCommandLevel v)).2
        ≠ Except.error AudioError.invalidRange := by
  have h0 : (0:ℚ) ≤ setVolumeCommandLevel v := by
    unfold setVolumeCommandLevel
    positivity
  have h1 : setVolumeCommandLevel v ≤ 1 := by
    unfold setVolumeCommandLevel
    rw [div_le_one (by norm_num : (0:ℚ) < 100)]
    exact_mod_cast hv
  exact ⟨h0, h1, set_volume_ne_invalidRange env (setVolumeCommandLevel v) ⟨h0, h1⟩⟩

/-- Witness for C9 at volume 50. -/
theorem C9_cli_setvolume_in_range_witness :
    0 ≤ setVolumeCommandLevel 50 ∧ setVolumeCommandLevel 50 ≤ 1 ∧
      (set_volume ⟨true, true, true, true, true, true, 0⟩
          (setVolumeCommandLevel 50)).2
        ≠ Except.error AudioError.invalidRange :=
  C9_cli_setvolume_in_range 50 (by decide) ⟨true, true, true, true, true, true, 0⟩

lemma foldl_applyStore_false (l : List FlagStore) :
    List.foldl applyStore false l = false := by
  induction l with
  | nil => rfl
  | cons a l ih =>
    cases a
    exact ih

lemma monitor_loop_length_indep (target : ℚ) (envs1 envs2 : ℕ → IterEnv)
    (flag : ℕ → Bool) :
    ∀ fuel i, (monitor_loop target envs1 flag fuel i).length
      = (monitor_loop target envs2 flag fuel i).length := by
  intro fuel
  induction fuel with
  | zero => intro i; rfl
  | succ n ih =>
    intro i
    by_cases h : flag i = true
    · simp [monitor_loop, h, ih (i + 1)]
    · simp [monitor_loop, h]

lemma stopped_mem_monitor_loop (target : ℚ) (envs : ℕ → IterEnv)
    (flag : ℕ → Bool) :
    ∀ fuel i, LoopEvent.stopped ∈ monitor_loop target envs flag fuel i →
      ∃ k, flag k = false := by
  intro fuel
  induction fuel with
  | zero => intro i h; simp [monitor_loop] at h
  | succ n ih =>
    intro i h
    by_cases hf : flag i = true
    · rw [monitor_loop, if_pos hf] at h
      simp only [List.mem_cons] at h
      rcases h with h | h | h
      · exact absurd h (by simp)
      · exact absurd h (by simp)
      · exact ih (i + 1) h
    · exact ⟨i, by simpa using hf⟩

/-- C6: the running flag is monotone — every store the program performs after
construction writes false, so a cleared flag never returns to true — and once
the loop observes the cleared flag it terminates at once, issuing no further
corrective write. -/
theorem C6_flag_monotone_loop_stops :
    (∀ stores : List FlagStore, stores ≠ [] → flagAfter stores = false) ∧
    (∀ pre post : List FlagStore, flagAfter pre = false →
        List.foldl applyStore (flagAfter pre) post = false) ∧
    (∀ (target : ℚ) (envs : ℕ → IterEnv) (flag : ℕ → Bool) (fuel i : ℕ),
        flag i = false →
          monitor_loop target envs flag (fuel + 1) i = [LoopEvent.stopped] ∧
          loopWrites (monitor_loop target envs flag (fuel + 1) i) = []) := by
  refine ⟨?_, ?_, ?_⟩
  · intro stores h
    match stores, h with
    | a :: l, _ =>
      cases a
      exact foldl_applyStore_false l
  · intro pre post h
    rw [h]
    exact foldl_applyStore_false post
  · intro target envs flag fuel i h
    have : monitor_loop target envs flag (fuel + 1) i = [LoopEvent.stopped] := by
      rw [monitor_loop, if_neg (by simp [h])]
    exact ⟨this, by rw [this]; rfl⟩

/-- Witness for C6: the single program store clears the flag, further stores
keep it cleared, and a loop whose flag reads false stops with no writes. -/
theorem C6_flag_monotone_loop_stops_witness :
    flagAfter [FlagStore.storeFalse] = false ∧
    List.foldl applyStore (flagAfter [FlagStore.storeFalse])
        [FlagStore.storeFalse] = false ∧
    monitor_loop 0 (fun _ => ⟨true, true, true, 0, true⟩) (fun _ => false) 1 0
      = [LoopEvent.stopped] ∧
    loopWrites (monitor_loop 0 (fun _ => ⟨true, true, true, 0, true⟩)
        (fun _ => false) 1 0) = [] :=
  ⟨C6_flag_monotone_loop_stops.1 [FlagStore.storeFalse] (by decide),
   C6_flag_monotone_loop_stops.2.1 [FlagStore.storeFalse] [FlagStore.storeFalse] rfl,
   (C6_flag_monotone_loop_stops.2.2 0 (fun _ => ⟨true, true, true, 0, true⟩)
       (fun _ => false) 0 0 rfl).1,
   (C6_flag_monotone_loop_stops.2.2 0 (fun _ => ⟨true, true, true, 0, true⟩)
       (fun _ => false) 0 0 rfl).2⟩

/-- C7: every error of the per-iteration read or corrective write is logged
and absorbed — an iteration whose flag reads true always continues with a
check event (recording whether an error was logged) followed by the sleep and
the next iteration, the trace's length does not depend on the device
environments at all, and the loop only ever stops because the flag read
false. -/
theorem C7_loop_absorbs_errors (target : ℚ) (envs1 envs2 : ℕ → IterEnv)
    (flag : ℕ → Bool) (fuel i : ℕ) :
    ((monitor_loop target envs1 flag fuel i).length
        = (monitor_loop target envs2 flag fuel i).length) ∧
    (flag i = true →
        monitor_loop target envs1 flag (fuel + 1) i
          = LoopEvent.check (check_and_adjust_volume (envs1 i) target).1
                (logsError (check_and_adjust_volume (envs1 i) target).2) ::
              LoopEvent.sleep :: monitor_loop target envs1 flag fuel (i + 1)) ∧
    (LoopEvent.stopped ∈ monitor_loop target envs1 flag fuel i →
        ∃ k, flag k = false) := by
  refine ⟨monitor_loop_length_indep target envs1 envs2 flag fuel i, ?_, ?_⟩
  · intro h
    rw [monitor_loop, if_pos h]
  · exact stopped_mem_monitor_loop target envs1 flag fuel i

/-- Witness for C7: a run whose first iteration hits an unavailable device
(its error logged) still continues, has the same trace length as a run on a
healthy device, and its stop is explained by a false flag read. -/
theorem C7_loop_absorbs_errors_witness :
    ((monitor_loop 0 (fun _ => ⟨false, true, true, 0, true⟩)
          (fun k => decide (k = 0)) 2 0).length
        = (monitor_loop 0 (fun _ => ⟨true, true, true, 0, true⟩)
          (fun k => decide (k = 0)) 2 0).length) ∧
    (monitor_loop 0 (fun _ => ⟨false, true, true, 0, true⟩)
          (fun k => decide (k = 0)) 2 0
        = LoopEvent.check
              (check_and_adjust_volume ⟨false, true, true, 0, true⟩ 0).1
              (logsError (check_and_adjust_volume ⟨false, true, true, 0, true⟩ 0).2) ::
            LoopEvent.sleep ::
            monitor_loop 0 (fun _ => ⟨false, true, true, 0, true⟩)
              (fun k => decide (k = 0)) 1 1) ∧
    (∃ k, (fun k => decide (k = 0)) k = false) :=
  ⟨(C7_loop_absorbs_errors 0 (fun _ => ⟨false, true, true, 0, true⟩)
      (fun _ => ⟨true, true, true, 0, true⟩) (fun k => decide (k = 0)) 2 0).1,
   (C7_loop_absorbs_errors 0 (fun _ => ⟨false, true, true, 0, true⟩)
      (fun _ => ⟨true, true, true, 0, true⟩) (fun k => decide (k = 0)) 1 0).2.1
     (by decide),
   (C7_loop_absorbs_errors 0 (fun _ => ⟨false, true, true, 0, true⟩)
      (fun _ => ⟨true, true, true, 0, true⟩) (fun k => decide (k = 0)) 2 0).2.2
     (by decide)⟩

/-- C8: in every monitoring run, the supervisor's unconditional initial
corrective write precedes every event of the interval-based loop: whenever any
loop event occurs in the run trace, the trace's first element is the initial
write of the target, and a successful initial write is followed by exactly the
loop's events. -/
theorem C8_initial_write_first (target : ℚ) (env : DevEnv)
    (comOk enumOk : Bool) (envs : ℕ → IterEnv) (flag : ℕ → Bool) (fuel : ℕ) :
    (∀ le : LoopEvent,
        RunEvent.loopEvent le ∈ run_trace target env comOk enumOk envs flag fuel →
          (run_trace target env comOk enumOk envs flag fuel).head?
            = some (RunEvent.initialWrite target)) ∧
    ((set_volume env target).2 = Except.ok () →
        run_trace target env comOk enumOk envs flag fuel
          = RunEvent.initialWrite target ::
              (monitor_and_control target comOk enumOk envs flag fuel).1.map
                RunEvent.loopEvent) := by
  constructor
  · intro le hmem
    unfold run_trace at hmem ⊢
    match hres : (set_volume env target).2 with
    | Except.error e => rw [hres] at hmem; simp at hmem
    | Except.ok u => rfl
  · intro h
    unfold run_trace
    rw [h]

/-- Witness for C8 at target 1 on a healthy device with an immediately cleared
flag: the loop's stop event is in the trace, whose head is the initial write. -/
theorem C8_initial_write_first_witness :
    ((run_trace 1 ⟨true, true, true, true, true, true, 0⟩ true true
        (fun _ => ⟨true, true, true, 0, true⟩) (fun _ => false) 1).head?
      = some (RunEvent.initialWrite 1)) ∧
    (run_trace 1 ⟨true, true, true, true, true, true, 0⟩ true true
        (fun _ => ⟨true, true, true, 0, true⟩) (fun _ => false) 1
      = RunEvent.initialWrite 1 ::
          (monitor_and_control 1 true true (fun _ => ⟨true, true, true, 0, true⟩)
            (fun _ => false) 1).1.map RunEvent.loopEvent) :=
  ⟨(C8_initial_write_first 1 ⟨true, true, true, true, true, true, 0⟩ true true
      (fun _ => ⟨true, true, true, 0, true⟩) (fun _ => false) 1).1
      LoopEvent.stopped (by decide),
   (C8_initial_write_first 1 ⟨true, true, true, true, true, true, 0⟩ true true
      (fun _ => ⟨true, true, true, 0, true⟩) (fun _ => false) 1).2 rfl⟩

lemma filter_name_of_filter_ne (store : TaskStore) :
    ((store.filter fun p => p.1 ≠ TASK_NAME).filter fun p => p.1 = TASK_NAME)
      = [] := by
  rw [List.filter_eq_nil_iff]
  intro a ha
  have h : decide (a.1 ≠ TASK_NAME) = true :=
    @List.of_mem_filter _ (fun p => decide (p.1 ≠ TASK_NAME)) a store ha
  simp only [decide_eq_true_eq] at h ⊢
  exact h

lemma filter_ne_idem (store : TaskStore) :
    ((store.filter fun p => p.1 ≠ TASK_NAME).filter fun p => p.1 ≠ TASK_NAME)
      = store.filter fun p => p.1 ≠ TASK_NAME := by
  rw [List.filter_eq_self]
  intro a ha
  exact @List.of_mem_filter _ (fun p => decide (p.1 ≠ TASK_NAME)) a store ha

lemma register_task_result (env : SchedEnv) (tv : ℚ) (im : ℕ)
    (store : TaskStore) (hs : env.serviceOk = true) (hc : env.commitOk = true) :
    register_task env tv im store
      = ((TASK_NAME, ⟨tv, im⟩) :: store.filter fun p => p.1 ≠ TASK_NAME,
         Except.ok ()) := by
  unfold register_task DeleteTask
  rw [hs, hc]
  by_cases h : (store.filter fun p => p.1 = TASK_NAME) = []
  · have hall : ∀ a ∈ store, ¬a.1 = TASK_NAME := by
      intro a ha
      have := (List.filter_eq_nil_iff.mp h) a ha
      simpa using this
    have hself : List.filter (fun p => !decide (p.1 = TASK_NAME)) store
        = store := by
      rw [List.filter_eq_self]
      intro a ha
      simpa using hall a ha
    simp [h, hself]
  · simp [h]

/-- C3 counterexample: with the scheduler service reachable, the VBS cleanup
healthy, and the task present, the first unregister_task succeeds, deleting
the task; the second call — the task now absent — returns an error, because
`DeleteTask`'s not-found failure is propagated by the `?` in src/scheduler.rs
lines 231-233.  This refutes the claim that absence of the task is not an
error and that two consecutive calls both succeed. -/
theorem C3_unregister_twice_counterexample :
    (unregister_task ⟨true, true⟩ true [(TASK_NAME, ⟨1, 5⟩)]).2 = Except.ok () ∧
    (unregister_task ⟨true, true⟩ true
        (unregister_task ⟨true, true⟩ true [(TASK_NAME, ⟨1, 5⟩)]).1).2
      = Except.error SchedError.taskNotFound := by
  constructor <;> rfl

/-- C3 (amended): unregister_task fails when the scheduler service is
unreachable, AND ALSO when the named task is absent, since the delete error is
propagated, AND ALSO when the VBS-wrapper cleanup after a successful delete
fails — in which case the task is nonetheless already deleted.  With the
service reachable and the task present, the task is always removed from the
store and the call returns Ok exactly when the cleanup also succeeds; an
immediately repeated call errors with the not-found failure in every case. -/
theorem C3_unregister_amended (env : SchedEnv) (cleanupOk : Bool)
    (store : TaskStore) :
    (env.serviceOk = false →
        unregister_task env cleanupOk store
          = (store, Except.error SchedError.serviceUnreachable)) ∧
    (env.serviceOk = true → (store.filter fun p => p.1 = TASK_NAME) = [] →
        unregister_task env cleanupOk store
          = (store, Except.error SchedError.taskNotFound)) ∧
    (env.serviceOk = true → (store.filter fun p => p.1 = TASK_NAME) ≠ [] →
        ((unregister_task env cleanupOk store).1
            = store.filter fun p => p.1 ≠ TASK_NAME) ∧
        (cleanupOk = true →
            (unregister_task env cleanupOk store).2 = Except.ok ()) ∧
        (cleanupOk = false →
            (unregister_task env cleanupOk store).2
              = Except.error SchedError.cleanupFailed) ∧
        (∀ cleanup2 : Bool,
            (unregister_task env cleanup2
                (unregister_task env cleanupOk store).1).2
              = Except.error SchedError.taskNotFound)) := by
  refine ⟨?_, ?_, ?_⟩
  · intro h
    simp [unregister_task, h]
  · intro hs hnil
    simp [unregister_task, DeleteTask, hs, hnil]
  · intro hs hne
    have hdel : DeleteTask store TASK_NAME
        = Except.ok (store.filter fun p => p.1 ≠ TASK_NAME) := by
      simp [DeleteTask, hne]
    have h1 : unregister_task env cleanupOk store
        = (store.filter fun p => p.1 ≠ TASK_NAME,
           if cleanupOk then Except.ok ()
           else Except.error SchedError.cleanupFailed) := by
      unfold unregister_task
      rw [hs, hdel]
      cases cleanupOk <;> rfl
    refine ⟨?_, ?_, ?_, ?_⟩
    · rw [h1]
    · intro hc
      subst hc
      rw [h1]
      rfl
    · intro hc
      subst hc
      rw [h1]
      rfl
    · intro cleanup2
      rw [h1]
      simp [unregister_task, DeleteTask, hs, filter_name_of_filter_ne store]

/-- Witness for C3 (amended) at the concrete situations: unreachable service,
absent task, present task with healthy cleanup (success), present task with
failing cleanup (error, task still deleted), and the second call erroring. -/
theorem C3_unregister_amended_witness :
    (unregister_task ⟨false, true⟩ true [(TASK_NAME, ⟨1, 5⟩)]
        = ([(TASK_NAME, ⟨1, 5⟩)], Except.error SchedError.serviceUnreachable)) ∧
    (unregister_task ⟨true, true⟩ true []
        = ([], Except.error SchedError.taskNotFound)) ∧
    (unregister_task ⟨true, true⟩ true [(TASK_NAME, ⟨1, 5⟩)]).2
      = Except.ok () ∧
    ((unregister_task ⟨true, true⟩ false [(TASK_NAME, ⟨1, 5⟩)]).1
        = List.filter (fun p => p.1 ≠ TASK_NAME) [(TASK_NAME, ⟨1, 5⟩)]) ∧
    (unregister_task ⟨true, true⟩ false [(TASK_NAME, ⟨1, 5⟩)]).2
      = Except.error SchedError.cleanupFailed ∧
    (unregister_task ⟨true, true⟩ true
        (unregister_task ⟨true, true⟩ false [(TASK_NAME, ⟨1, 5⟩)]).1).2
      = Except.error SchedError.taskNotFound :=
  ⟨(C3_unregister_amended ⟨false, true⟩ true [(TASK_NAME, ⟨1, 5⟩)]).1 rfl,
   (C3_unregister_amended ⟨true, true⟩ true []).2.1 rfl rfl,
   ((C3_unregister_amended ⟨true, true⟩ true [(TASK_NAME, ⟨1, 5⟩)]).2.2 rfl
     (by simp [TASK_NAME])).2.1 rfl,
   ((C3_unregister_amended ⟨true, true⟩ false [(TASK_NAME, ⟨1, 5⟩)]).2.2 rfl
     (by simp [TASK_NAME])).1,
   ((C3_unregister_amended ⟨true, true⟩ false [(TASK_NAME, ⟨1, 5⟩)]).2.2 rfl
     (by simp [TASK_NAME])).2.2.1 rfl,
   ((C3_unregister_amended ⟨true, true⟩ false [(TASK_NAME, ⟨1, 5⟩)]).2.2 rfl
     (by simp [TASK_NAME])).2.2.2 true⟩

/-- C4: register_task is idempotent on the OS task store: for every initial
store and identical parameters, a successful registration leaves exactly one
task of the fixed name — the freshly built definition — because it first
deletes any pre-existing task of that name (ignoring the not-found error) and
then creates the definition from scratch; repeating the call reproduces the
same store. -/
theorem C4_register_idempotent (env : SchedEnv) (tv : ℚ) (im : ℕ)
    (store : TaskStore) (hs : env.serviceOk = true) (hc : env.commitOk = true) :
    (((register_task env tv im store).1.filter fun p => p.1 = TASK_NAME)
        = [(TASK_NAME, ⟨tv, im⟩)]) ∧
    (((register_task env tv im store).1.countP fun p => p.1 = TASK_NAME) = 1) ∧
    (register_task env tv im (register_task env tv im store).1
        = register_task env tv im store) := by
  have h1 := register_task_result env tv im store hs hc
  have hfilter : ((register_task env tv im store).1.filter
      fun p => p.1 = TASK_NAME) = [(TASK_NAME, ⟨tv, im⟩)] := by
    rw [h1, List.filter_cons_of_pos (by simp), filter_name_of_filter_ne store]
  refine ⟨hfilter, ?_, ?_⟩
  · rw [List.countP_eq_length_filter, hfilter]
    rfl
  · have h2 := register_task_result env tv im
      ((TASK_NAME, (⟨tv, im⟩ : TaskDef)) :: store.filter
        fun p => p.1 ≠ TASK_NAME) hs hc
    rw [h1, h2, List.filter_cons_of_neg (by simp), filter_ne_idem store]

/-- Witness for C4 on a store that already holds a stale task of the fixed
name. -/
theorem C4_register_idempotent_witness :
    (((register_task ⟨true, true⟩ 1 10 [(TASK_NAME, ⟨0, 5⟩)]).1.filter
        fun p => p.1 = TASK_NAME) = [(TASK_NAME, ⟨1, 10⟩)]) ∧
    (((register_task ⟨true, true⟩ 1 10 [(TASK_NAME, ⟨0, 5⟩)]).1.countP
        fun p => p.1 = TASK_NAME) = 1) ∧
    (register_task ⟨true, true⟩ 1 10
        (register_task ⟨true, true⟩ 1 10 [(TASK_NAME, ⟨0, 5⟩)]).1
      = register_task ⟨true, true⟩ 1 10 [(TASK_NAME, ⟨0, 5⟩)]) :=
  ⟨(C4_register_idempotent ⟨true, true⟩ 1 10 [(TASK_NAME, ⟨0, 5⟩)] rfl rfl).1,
   (C4_register_idempotent ⟨true, true⟩ 1 10 [(TASK_NAME, ⟨0, 5⟩)] rfl rfl).2.1,
   (C4_register_idempotent ⟨true, true⟩ 1 10 [(TASK_NAME, ⟨0, 5⟩)] rfl rfl).2.2⟩

lemma defaultConfig_validate :
    Config.defaultConfig.validate = Except.ok () := by
  unfold Config.validate Config.defaultConfig
  rw [if_pos (by constructor <;> norm_num), if_neg (by norm_num)]

lemma load_spec_err (cli : Cli) (w : Bool) (fs : ConfigFs) (e : ConfigError)
    (h : (mergedConfig cli fs).validate = Except.error e) :
    Config.load cli w fs = (fs, Except.error e) := by
  unfold Config.load
  rw [h]

lemma load_spec_ok (cli : Cli) (fs : ConfigFs)
    (h : (mergedConfig cli fs).validate = Except.ok ()) :
    Config.load cli true fs
      = (⟨some (serializeConfig (mergedConfig cli fs))⟩,
         Except.ok (mergedConfig cli fs)) := by
  unfold Config.load
  rw [h]
  rfl

lemma load_spec_savefail (cli : Cli) (fs : ConfigFs)
    (h : (mergedConfig cli fs).validate = Except.ok ()) :
    Config.load cli false fs = (fs, Except.error ConfigError.writeFailed) := by
  unfold Config.load
  rw [h]
  rfl

/-- C5 counterexample: a persisted record that stores target_volume = 1/2 but
lacks the check_interval_ms field fails the whole parse (no serde(default) on
the struct), so Config::load falls back to the complete defaults: the loaded
target_volume is 0.95, not the stored 1/2 that field-wise partial
deserialization would require. -/
theorem C5_missing_field_counterexample :
    (Config.load ⟨none, none, false, false⟩ true
        ⟨some ⟨some (1 / 2), none, some true, some true, []⟩⟩).2
      = Except.ok Config.defaultConfig ∧
    Config.defaultConfig.target_volume = 95 / 100 ∧
    ¬Config.defaultConfig.target_volume = 1 / 2 := by
  have hmerged : mergedConfig ⟨none, none, false, false⟩
      ⟨some ⟨some (1 / 2), none, some true, some true, []⟩⟩
      = Config.defaultConfig := rfl
  refine ⟨?_, rfl, ?_⟩
  · rw [load_spec_ok ⟨none, none, false, false⟩
      ⟨some ⟨some (1 / 2), none, some true, some true, []⟩⟩
      (by rw [hmerged]; exact defaultConfig_validate), hmerged]
  · unfold Config.defaultConfig
    norm_num

/-- C5 (amended): unknown fields are indeed ignored, and a record with all
fields present keeps every stored value; but a record missing any field fails
deserialization as a whole, and Config::load then falls back to the complete
defaults (target_volume 0.95, check_interval_ms 300000), discarding the
stored values of the fields that were present. -/
theorem C5_forward_compat_amended (r : ConfigRecord) :
    (∀ tv ci et ea, r.tv = some tv → r.ci = some ci → r.et = some et →
        r.ea = some ea → deserializeConfig r = Except.ok ⟨tv, ci, et, ea⟩) ∧
    ((r.tv = none ∨ r.ci = none ∨ r.et = none ∨ r.ea = none) →
        (Config.load ⟨none, none, false, false⟩ true ⟨some r⟩).2
          = Except.ok Config.defaultConfig) := by
  constructor
  · intro tv ci et ea h1 h2 h3 h4
    unfold deserializeConfig
    rw [h1, h2, h3, h4]
  · intro h
    have hdeser : deserializeConfig r = Except.error ConfigError.missingField := by
      obtain ⟨otv, oci, oet, oea, unk⟩ := r
      cases otv <;> cases oci <;> cases oet <;> cases oea <;>
        first
          | rfl
          | simp at h
    have hmerged : mergedConfig ⟨none, none, false, false⟩ ⟨some r⟩
        = Config.defaultConfig := by
      simp only [mergedConfig, load_from_file, hdeser]
      rfl
    rw [load_spec_ok ⟨none, none, false, false⟩ ⟨some r⟩
      (by rw [hmerged]; exact defaultConfig_validate), hmerged]

/-- Witness for C5 (amended): a fully-populated record with an unknown extra
key parses to exactly its stored values, and a record missing the interval
field loads as the full defaults. -/
theorem C5_forward_compat_amended_witness :
    deserializeConfig ⟨some 1, some 200, some true, some false, ["extra"]⟩
      = Except.ok ⟨1, 200, true, false⟩ ∧
    (Config.load ⟨none, none, false, false⟩ true
        ⟨some ⟨some 1, none, some true, some true, []⟩⟩).2
      = Except.ok Config.defaultConfig :=
  ⟨(C5_forward_compat_amended
      ⟨some 1, some 200, some true, some false, ["extra"]⟩).1
      1 200 true false rfl rfl rfl rfl,
   (C5_forward_compat_amended
      ⟨some 1, none, some true, some true, []⟩).2 (Or.inr (Or.inl rfl))⟩

/-- C10: whenever Config::load returns Ok, the returned config is the merged
one and the persisted record equals its serialization; when validation of the
merged config fails, the file system is left untouched and the error is
returned. -/
theorem C10_load_persists_merged (cli : Cli) (writeOk : Bool) (fs : ConfigFs) :
    (∀ c, (Config.load cli writeOk fs).2 = Except.ok c →
        c = mergedConfig cli fs ∧
        (Config.load cli writeOk fs).1.configFile = some (serializeConfig c)) ∧
    (∀ e, (mergedConfig cli fs).validate = Except.error e →
        Config.load cli writeOk fs = (fs, Except.error e)) := by
  constructor
  · intro c hc
    cases hval : (mergedConfig cli fs).validate with
    | error e =>
      rw [load_spec_err cli writeOk fs e hval] at hc
      exact absurd hc (by simp)
    | ok u =>
      cases u
      cases writeOk with
      | false =>
        rw [load_spec_savefail cli fs hval] at hc
        exact absurd hc (by simp)
      | true =>
        rw [load_spec_ok cli fs hval] at hc
        have hc2 : mergedConfig cli fs = c := by simpa using hc
        subst hc2
        exact ⟨rfl, by rw [load_spec_ok cli fs hval]⟩
  · intro e he
    exact load_spec_err cli writeOk fs e he

/-- Witness for C10: loading with no file and no CLI arguments persists the
defaults it returns; loading a stored out-of-range target fails validation
and leaves the file untouched. -/
theorem C10_load_persists_merged_witness :
    (Config.defaultConfig = mergedConfig ⟨none, none, false, false⟩ ⟨none⟩ ∧
      (Config.load ⟨none, none, false, false⟩ true ⟨none⟩).1.configFile
        = some (serializeConfig Config.defaultConfig)) ∧
    Config.load ⟨none, none, false, false⟩ true
        ⟨some ⟨some 2, some 300000, some true, some true, []⟩⟩
      = (⟨some ⟨some 2, some 300000, some true, some true, []⟩⟩,
         Except.error ConfigError.invalidTargetVolume) :=
  ⟨(C10_load_persists_merged ⟨none, none, false, false⟩ true ⟨none⟩).1
      Config.defaultConfig
      (by
        rw [load_spec_ok ⟨none, none, false, false⟩ ⟨none⟩ defaultConfig_validate]
        rfl),
   (C10_load_persists_merged ⟨none, none, false, false⟩ true
      ⟨some ⟨some 2, some 300000, some true, some true, []⟩⟩).2
      ConfigError.invalidTargetVolume
      (by
        have h : mergedConfig ⟨none, none, false, false⟩
            ⟨some ⟨some 2, some 300000, some true, some true, []⟩⟩
            = ⟨2, 300000, true, true⟩ := rfl
        rw [h]
        unfold Config.validate
        rw [if_neg (fun hr => absurd hr.2 (by norm_num))])⟩

end MicVolCtl
